import Mathlib

/-!
Verification development for the Smart PDF AI backend (FastAPI + SQLAlchemy).

The relational store is embedded shallowly: each SQLAlchemy model becomes a
structure, each table a list of rows, and each service function a pure Lean
function passing the store state explicitly.  `datetime.utcnow()` is a `Nat`
parameter `now`, and a row is unexpired when `now < expires_at`, mirroring the
`expires_at > datetime.utcnow()` filters in `app/services/user.py`.

External collaborators (bcrypt hashing via passlib, JWT signing/decoding via
jose, `secrets` randomness, the SMTP relay, the FAISS retriever and the hosted
LLM) are parameters of the functions that call them, so every repository-side
branch is embedded while the collaborators stay abstract.
-/

namespace SmartPdf

/-- Roles of `app/models/user.py` (`UserRole`). -/
inductive UserRole where
  | admin
  | user
  | moderator
deriving DecidableEq, Repr

/-- A row of the `users` table (`app/models/user.py`, class `User`). -/
structure UserR where
  id : Nat
  email : String
  username : String
  hashed_password : String
  full_name : String
  role : UserRole
  is_active : Bool
  is_verified : Bool
deriving DecidableEq, Repr

/-- A row of the `refresh_tokens` table (`app/models/user.py`, class
`RefreshToken`).  `user_agent`/`ip_address` are request metadata kept for
fidelity of row shape. -/
structure RefreshTokenR where
  id : Nat
  token : String
  expires_at : Nat
  revoked : Bool
  user_id : Nat
  user_agent : Option String
  ip_address : Option String
deriving DecidableEq, Repr

/-- A row of the `verification_tokens` table. -/
structure VerificationTokenR where
  id : Nat
  token : String
  expires_at : Nat
  user_id : Nat
deriving DecidableEq, Repr

/-- A row of the `password_reset_tokens` table. -/
structure PasswordResetTokenR where
  id : Nat
  token : String
  expires_at : Nat
  user_id : Nat
deriving DecidableEq, Repr

/-- The relational store: one list per table touched by the auth subsystem. -/
structure DB where
  users : List UserR
  refresh_tokens : List RefreshTokenR
  verification_tokens : List VerificationTokenR
  password_reset_tokens : List PasswordResetTokenR
deriving DecidableEq, Repr

/-! ## Python string primitives

The handlers manipulate Python `str` values; Lean's built-in `String.splitOn`,
`trim`, `toLower`, … are compiled by well-founded recursion and do not reduce
inside the kernel, so the Python operations are re-implemented here by
structural recursion over the character list.  Each definition names the
Python operation it models. -/

/-- Is `pat` a prefix of the character list? -/
def isPrefixChars : List Char → List Char → Bool
  | [], _ => true
  | _ :: _, [] => false
  | p :: ps, c :: cs => p == c && isPrefixChars ps cs

/-- If `pat` is a prefix, the remainder after it. -/
def dropPrefixChars : List Char → List Char → Option (List Char)
  | [], s => some s
  | _ :: _, [] => none
  | p :: ps, c :: cs => if p == c then dropPrefixChars ps cs else none

/-- Occurrence test on character lists. -/
def inCharsList (pat : List Char) : List Char → Bool
  | [] => pat.isEmpty
  | c :: cs => isPrefixChars pat (c :: cs) || inCharsList pat cs

/-- Python `pat in s`. -/
def pyIn (pat s : String) : Bool := inCharsList pat.toList s.toList

/-- Python `s.split(sep)` on character lists, with enough fuel (the scan
consumes at least one character per step, so `s.length` steps suffice). -/
def pySplitGo (pat : List Char) : Nat → List Char → List (List Char)
  | _, [] => [[]]
  | 0, s => [s]
  | fuel + 1, c :: cs =>
    match dropPrefixChars pat (c :: cs) with
    | some rest => [] :: pySplitGo pat fuel rest
    | none =>
      match pySplitGo pat fuel cs with
      | [] => [[c]]
      | piece :: pieces => (c :: piece) :: pieces

/-- Python `s.split(sep)` for a non-empty separator: all pieces between
non-overlapping occurrences, empty pieces kept. -/
def pySplitOn (s pat : String) : List String :=
  (pySplitGo pat.toList s.toList.length s.toList).map String.mk

/-- Python `s.strip(chars)` and `s.strip()`: drop the given characters from
both ends (`s.strip()` uses whitespace). -/
def pyStripBy (p : Char → Bool) (s : String) : String :=
  String.mk (((s.toList.dropWhile p).reverse.dropWhile p).reverse)

/-- Python `s.strip()`. -/
def pyStrip (s : String) : String := pyStripBy Char.isWhitespace s

/-- Python `s.startswith(pre)`. -/
def pyStartsWith (s pre : String) : Bool := isPrefixChars pre.toList s.toList

/-- Python `s[n:]`. -/
def pyDrop (s : String) (n : Nat) : String := String.mk (s.toList.drop n)

/-- Python `s[:n]`. -/
def pyTake (s : String) (n : Nat) : String := String.mk (s.toList.take n)

/-- Python `s.lower()`. -/
def pyLower (s : String) : String := String.mk (s.toList.map Char.toLower)

/-- One step of Python `s.split()` (no separator): accumulate the current
word (reversed) and emit it at each whitespace run. -/
def pyWordsGo : List Char → List Char → List String
  | acc, [] => if acc.isEmpty then [] else [String.mk acc.reverse]
  | acc, c :: cs =>
    if c.isWhitespace then
      if acc.isEmpty then pyWordsGo [] cs
      else String.mk acc.reverse :: pyWordsGo [] cs
    else pyWordsGo (c :: acc) cs

/-- Python `s.split()`: whitespace-separated words, empties dropped. -/
def pyWords (s : String) : List String := pyWordsGo [] s.toList

/-- Default of `ACCESS_TOKEN_EXPIRE_MINUTES` in `app/core/config.py`. -/
def ACCESS_TOKEN_EXPIRE_MINUTES : Nat := 30

/-- Default of `REFRESH_TOKEN_EXPIRE_DAYS` in `app/core/config.py`. -/
def REFRESH_TOKEN_EXPIRE_DAYS : Nat := 7

/-! ## Service layer: `app/services/user.py` -/

/-- `get_user_by_id`: `db.query(User).filter(User.id == user_id).first()`. -/
def get_user_by_id (db : DB) (user_id : Nat) : Option UserR :=
  db.users.find? (fun u => u.id == user_id)

/-- `get_user_by_email`. -/
def get_user_by_email (db : DB) (email : String) : Option UserR :=
  db.users.find? (fun u => u.email == email)

/-- `get_user_by_username`. -/
def get_user_by_username (db : DB) (username : String) : Option UserR :=
  db.users.find? (fun u => u.username == username)

/-- The payload of `schemas.user.UserCreate` used by `create_user`. -/
structure UserCreate where
  email : String
  username : String
  password : String
  full_name : String
deriving DecidableEq, Repr

/-- `create_user`: hashes the password (bcrypt via the `hash` parameter) and
inserts a row with `is_active=True`, `is_verified=False` and the column
default role `UserRole.USER`.  `new_id` stands for the autoincrement key. -/
def create_user (db : DB) (hash : String → String) (new_id : Nat)
    (uc : UserCreate) : UserR × DB :=
  let db_user : UserR :=
    { id := new_id
      email := uc.email
      username := uc.username
      hashed_password := hash uc.password
      full_name := uc.full_name
      role := UserRole.user
      is_active := true
      is_verified := false }
  (db_user, { db with users := db.users ++ [db_user] })

/-- `authenticate_user`: email lookup, then the bcrypt check
(`verify_password`, abstracted as the `verify` parameter). -/
def authenticate_user (db : DB) (verify : String → String → Bool)
    (email password : String) : Option UserR :=
  match get_user_by_email db email with
  | none => none
  | some user => if verify password user.hashed_password then some user else none

/-- `verify_user_email`: looks up an unexpired verification token, marks the
user verified and deletes the token row (`db.delete(db_token)` removes the
row with the found primary key). -/
def verify_user_email (db : DB) (now : Nat) (token : String) :
    Option (UserR × DB) :=
  match db.verification_tokens.find?
      (fun t => t.token == token && decide (now < t.expires_at)) with
  | none => none
  | some db_token =>
    match get_user_by_id db db_token.user_id with
    | none => none
    | some user =>
      let user' := { user with is_verified := true }
      some (user',
        { db with
          users := db.users.map
            (fun u => if u.id == user.id then { u with is_verified := true } else u)
          verification_tokens :=
            db.verification_tokens.filter (fun t => t.id != db_token.id) })

/-- `reset_user_password`: looks up an unexpired reset token, rehashes the
password and deletes the token row. -/
def reset_user_password (db : DB) (now : Nat) (hash : String → String)
    (token new_password : String) : Option (UserR × DB) :=
  match db.password_reset_tokens.find?
      (fun t => t.token == token && decide (now < t.expires_at)) with
  | none => none
  | some db_token =>
    match get_user_by_id db db_token.user_id with
    | none => none
    | some user =>
      let user' := { user with hashed_password := hash new_password }
      some (user',
        { db with
          users := db.users.map
            (fun u => if u.id == user.id then { u with hashed_password := hash new_password } else u)
          password_reset_tokens :=
            db.password_reset_tokens.filter (fun t => t.id != db_token.id) })

/-- `get_refresh_token`: the lookup that validates a refresh token — token
string match, unexpired, and `revoked == False`. -/
def get_refresh_token (db : DB) (now : Nat) (token : String) :
    Option RefreshTokenR :=
  db.refresh_tokens.find?
    (fun r => r.token == token && decide (now < r.expires_at) && r.revoked == false)

/-- Sets `revoked = True` on the first row whose token string matches: the ORM
object returned by `.first()` is the one mutated. -/
def revokeFirst : List RefreshTokenR → String → List RefreshTokenR
  | [], _ => []
  | r :: rs, token =>
    if r.token == token then { r with revoked := true } :: rs
    else r :: revokeFirst rs token

/-- `revoke_refresh_token`: finds the row by token string alone (no expiry or
revocation filter); absent → `False` and no change; present → mark that row
revoked and return `True`. -/
def revoke_refresh_token (db : DB) (token : String) : DB × Bool :=
  match db.refresh_tokens.find? (fun r => r.token == token) with
  | none => (db, false)
  | some _ =>
    ({ db with refresh_tokens := revokeFirst db.refresh_tokens token }, true)

/-- `revoke_all_user_refresh_tokens`: collects the user's non-revoked rows;
none → `False` and no change; otherwise marks each of them revoked. -/
def revoke_all_user_refresh_tokens (db : DB) (user_id : Nat) : DB × Bool :=
  let db_tokens := db.refresh_tokens.filter
    (fun r => r.user_id == user_id && r.revoked == false)
  if db_tokens.isEmpty then (db, false)
  else
    ({ db with
        refresh_tokens := db.refresh_tokens.map
          (fun r =>
            if r.user_id == user_id && r.revoked == false then { r with revoked := true }
            else r) },
      true)

/-! ## Security layer: `app/core/security.py` -/

/-- `create_refresh_token`: persists a row expiring
`REFRESH_TOKEN_EXPIRE_DAYS` later whose `revoked` column takes the model
default `False`, and returns the opaque token string.  The string itself
comes from `secrets.token_urlsafe(64)` (external randomness), passed in as
`token`; `new_id` stands for the autoincrement key. -/
def create_refresh_token (db : DB) (now new_id user_id : Nat) (token : String)
    (user_agent ip_address : Option String) : String × DB :=
  let expires_at := now + REFRESH_TOKEN_EXPIRE_DAYS * 24 * 60 * 60
  let db_refresh_token : RefreshTokenR :=
    { id := new_id
      token := token
      expires_at := expires_at
      revoked := false
      user_id := user_id
      user_agent := user_agent
      ip_address := ip_address }
  (token, { db with refresh_tokens := db.refresh_tokens ++ [db_refresh_token] })

/-- Value semantics of `secrets.compare_digest` on strings: equality.  The
constant-time execution of the comparison is a timing property outside the
value model. -/
def compare_digest (a b : String) : Bool := a == b

/-- `verify_csrf_token`: both values must be non-empty (`not s` in Python is
true for the empty string) and equal under `compare_digest`. -/
def verify_csrf_token (csrf_token csrf_cookie : String) : Bool :=
  if csrf_token == "" || csrf_cookie == "" then false
  else compare_digest csrf_token csrf_cookie

/-- The claims a decoded access-token payload carries
(`create_access_token` encodes `exp`, `sub`, `role`, `jti`, `type`;
`sub = str(subject)` so a payload missing `sub` models `payload.get("sub")
is None`). -/
structure JWTPayload where
  sub : Option Nat
  role : String
  jti : String
  type : String
deriving DecidableEq, Repr

/-- Outcome of `jose.jwt.decode` on a presented token string: a `JWTError`
(bad signature or malformed token), an `ExpiredSignatureError` (also a
`JWTError`, raised when `exp` has passed), or a payload. -/
inductive DecodeOutcome where
  | malformed
  | expired
  | ok (payload : JWTPayload)

/-- `get_current_user`: the per-request session resolution.  The cookie is the
only token source used (`if not access_token` also rejects an empty cookie);
`decode` stands for `jwt.decode` with the server secret.  `401` models the
unauthenticated `HTTPException`; the `except jwt.JWTError` branch catches both
`malformed` and `expired` while the `HTTPException`s raised inside the `try`
propagate unchanged. -/
def get_current_user (db : DB) (access_token : Option String)
    (decode : String → DecodeOutcome) : Except Nat UserR :=
  match access_token with
  | none => .error 401
  | some tok =>
    if tok == "" then .error 401
    else
      match decode tok with
      | .malformed => .error 401
      | .expired => .error 401
      | .ok payload =>
        if payload.type != "access" then .error 401
        else
          match payload.sub with
          | none => .error 401
          | some user_id =>
            match db.users.find? (fun u => u.id == user_id) with
            | none => .error 401
            | some user =>
              if !user.is_active then .error 401
              else .ok user

/-- `is_admin` in `app/core/security.py`.  The SQLAlchemy `User` model
declares no `is_admin` attribute, so `hasattr(user, "is_admin")` is `False`
and that branch is dead; the live check is `"admin" in user.email.lower()`. -/
def is_admin (user : UserR) : Bool :=
  pyIn "admin" (pyLower user.email)

/-! ## Auth endpoints: `app/api/auth.py` -/

/-- The `Token` response envelope. -/
structure TokenOut where
  access_token : String
  token_type : String
  expires_in : Nat
deriving DecidableEq, Repr

/-- One `response.set_cookie` call. -/
structure CookieOut where
  name : String
  value : String
  httponly : Bool
  max_age : Nat
deriving DecidableEq, Repr

/-- `POST /auth/register`: reject a duplicate email, then a duplicate
username, with 400 and no store change; otherwise create the user.  The
verification email is sent after the insert with any failure swallowed, so it
does not affect state or status. -/
def register (db : DB) (hash : String → String) (new_id : Nat)
    (user_create : UserCreate) : Except Nat UserR × DB :=
  if (get_user_by_email db user_create.email).isSome then (.error 400, db)
  else if (get_user_by_username db user_create.username).isSome then (.error 400, db)
  else
    let (user, db') := create_user db hash new_id user_create
    (.ok user, db')

/-- `POST /auth/login`: authenticate by email+password, reject an inactive
user with 401, otherwise mint an access token (`mk_access`, the jose signing
of subject and role), persist a refresh token and set the three cookies.
`rt_token`/`csrf` stand for the `secrets` randomness. -/
def login (db : DB) (now : Nat) (verify : String → String → Bool)
    (mk_access : Nat → UserRole → String) (new_rt_id : Nat)
    (rt_token csrf : String) (user_agent ip_address : Option String)
    (email password : String) :
    Except Nat (TokenOut × List CookieOut) × DB :=
  match authenticate_user db verify email password with
  | none => (.error 401, db)
  | some user =>
    if !user.is_active then (.error 401, db)
    else
      let access_token := mk_access user.id user.role
      let (refresh_tok, db') :=
        create_refresh_token db now new_rt_id user.id rt_token user_agent ip_address
      let cookies : List CookieOut :=
        [ { name := "access_token", value := access_token, httponly := true
            max_age := ACCESS_TOKEN_EXPIRE_MINUTES * 60 },
          { name := "refresh_token", value := refresh_tok, httponly := true
            max_age := REFRESH_TOKEN_EXPIRE_DAYS * 24 * 60 * 60 },
          { name := "csrf_token", value := csrf, httponly := false
            max_age := ACCESS_TOKEN_EXPIRE_MINUTES * 60 } ]
      (.ok ({ access_token := access_token, token_type := "bearer"
              expires_in := ACCESS_TOKEN_EXPIRE_MINUTES * 60 }, cookies), db')

/-- Python falsiness of an optional cookie/header value: absent or empty. -/
def falsy : Option String → Bool
  | none => true
  | some s => s == ""

/-- `POST /auth/refresh`: missing refresh cookie → 401; missing either CSRF
value → 401; CSRF mismatch (`verify_csrf_token(x_csrf_token, csrf_token)`)
→ 401; unknown/expired/revoked refresh token → 401; user missing or inactive
→ 401; otherwise mint a new access token plus CSRF cookie.  The refresh token
row is not rotated and the store is returned unchanged in every branch. -/
def refresh_endpoint (db : DB) (now : Nat) (mk_access : Nat → UserRole → String)
    (new_csrf : String)
    (refresh_token csrf_token x_csrf_token : Option String) :
    Except Nat (TokenOut × List CookieOut) × DB :=
  if falsy refresh_token then (.error 401, db)
  else if falsy csrf_token || falsy x_csrf_token then (.error 401, db)
  else
    let rt := refresh_token.getD ""
    let cc := csrf_token.getD ""
    let xc := x_csrf_token.getD ""
    if !verify_csrf_token xc cc then (.error 401, db)
    else
      match get_refresh_token db now rt with
      | none => (.error 401, db)
      | some db_refresh_token =>
        match db.users.find? (fun u => u.id == db_refresh_token.user_id) with
        | none => (.error 401, db)
        | some user =>
          if !user.is_active then (.error 401, db)
          else
            let access_token := mk_access user.id user.role
            let cookies : List CookieOut :=
              [ { name := "access_token", value := access_token, httponly := true
                  max_age := ACCESS_TOKEN_EXPIRE_MINUTES * 60 },
                { name := "csrf_token", value := new_csrf, httponly := false
                  max_age := ACCESS_TOKEN_EXPIRE_MINUTES * 60 } ]
            (.ok ({ access_token := access_token, token_type := "bearer"
                    expires_in := ACCESS_TOKEN_EXPIRE_MINUTES * 60 }, cookies), db)

/-- `POST /auth/logout`: revoke the refresh-token cookie's row when the cookie
is present (cookie clearing is response-side only). -/
def logout (db : DB) (refresh_token : Option String) : DB :=
  match refresh_token with
  | none => db
  | some rt => (revoke_refresh_token db rt).1

/-- `POST /auth/reset-password`: run `reset_user_password`; invalid or expired
token → 400 with the store unchanged; on success revoke every refresh token of
the user. -/
def reset_password (db : DB) (now : Nat) (hash : String → String)
    (token new_password : String) : Except Nat Unit × DB :=
  match reset_user_password db now hash token new_password with
  | none => (.error 400, db)
  | some (user, db') =>
    (.ok (), (revoke_all_user_refresh_tokens db' user.id).1)

/-- `GET /admin/stats` (`app/api/endpoints/admin.py`): the gate before the
mocked statistics payload — `is_admin` or 403. -/
def get_dashboard_stats (current_user : UserR) : Except Nat Unit :=
  if !is_admin current_user then .error 403 else .ok ()

/-! ## Question pipeline: `app/api/endpoints/smart_AI_pdf.py`

`generate_questions` is embedded from the per-slot loop onward.  The two
external collaborators are parameters: `all_docs` is the pool of chunk texts
the FAISS retriever returned (`doc.page_content` per document), and `results`
gives, for each slot (indexed by the number of questions already produced,
one `generate_text` call per slot), the string `generate_text` returned —
`generate_text` catches every exception and always returns a string, so an
arbitrary `String`-valued oracle covers all its behaviours, including its
`Error: ...` strings and canned fallbacks. -/

/-- The characters of Python `w.strip(".,():;!?")`. -/
def PUNCT : List Char := ['.', ',', '(', ')', ':', ';', '!', '?']

/-- Python `w.strip(".,():;!?")`: drop those characters from both ends. -/
def stripPunct (w : String) : String :=
  pyStripBy (fun c => c ∈ PUNCT) w

/-- The subject-extraction block of the slot loop: first consecutive
capitalized pair, else first unused long capitalized word, else first
technical term, else `topic i+1`. -/
def extract_subject (context : String) (used_subjects : List String) (i : Nat) :
    String :=
  let words := pyWords context
  let potential_subjects :=
    (words.filter (fun w =>
      decide (w.length > 3) && (w.toList.headD 'A').isUpper
        && !(used_subjects.contains (stripPunct w)))).map stripPunct
  let key_phrases :=
    (List.range (words.length - 1)).filterMap (fun j =>
      let wj := words.getD j ""
      let wj1 := words.getD (j + 1) ""
      if decide (wj.length > 2) && (wj.toList.headD 'A').isUpper
          && decide (wj1.length > 2) && (wj1.toList.headD 'A').isUpper then
        some (stripPunct (wj ++ " " ++ wj1))
      else none)
  match key_phrases with
  | phrase :: _ => phrase
  | [] =>
    match potential_subjects with
    | s :: _ => s
    | [] =>
      let technical_terms :=
        (words.filter (fun w =>
          decide (w.length > 5)
            && !(["because", "therefore", "however", "although"].contains (pyLower w)))).map
          stripPunct
      match technical_terms with
      | t :: _ => t
      | [] => "topic " ++ toString (i + 1)

/-- A generated question record (the endpoint's `Question` model). -/
structure QuestionOut where
  question : String
  answer : String
  question_type : String
  options : Option (List String)
deriving DecidableEq, Repr

/-- The option lines of a multiple-choice block: split on newlines, keep the
stripped lines starting `A)`–`D)`, drop their first three characters and strip
again. -/
def parse_options (options_text : String) : List String :=
  (pySplitOn options_text "\n").filterMap (fun opt =>
    let o := pyStrip opt
    if !(o == "")
        && (pyStartsWith o "A)" || pyStartsWith o "B)" || pyStartsWith o "C)"
            || pyStartsWith o "D)") then
      some (pyStrip (pyDrop o 3))
    else none)

/-- The `try` block of one slot from `result = generate_text(prompt)` onward:
`none` models a raised `ValueError` (handled by the fallback), and the second
component is `used_questions` afterwards — the question text is recorded as
used before the Options/Answer validation, exactly as in the source. -/
def attempt_slot (q_type result : String) (used_questions : List String) :
    Option QuestionOut × List String :=
  if pyIn "Error:" result then (none, used_questions)
  else
    let parts := pySplitOn result "Question:"
    if decide (parts.length < 2) then (none, used_questions)
    else
      let question_text :=
        pyStrip ((pySplitOn (parts.getD 1 "")
          (if q_type == "multiple_choice" then "Options:" else "Answer:")).getD 0 "")
      if used_questions.contains question_text then (none, used_questions)
      else
        let used' := used_questions ++ [question_text]
        if q_type == "multiple_choice" then
          if !pyIn "Options:" result || !pyIn "Answer:" result then
            (none, used')
          else
            let options_text :=
              pyStrip ((pySplitOn ((pySplitOn result "Options:").getD 1 "") "Answer:").getD 0 "")
            let options := parse_options options_text
            if options.length != 4 then (none, used')
            else
              let answer := pyStrip ((pySplitOn result "Answer:").getD 1 "")
              (some { question := question_text, answer := answer
                      question_type := q_type, options := some options }, used')
        else
          if !pyIn "Answer:" result then (none, used')
          else
            let answer := pyStrip ((pySplitOn result "Answer:").getD 1 "")
            (some { question := question_text, answer := answer
                    question_type := q_type, options := none }, used')

/-- The three multiple-choice fallback templates: question, answer, options. -/
def mc_fallback (subject : String) : Nat → String × String × List String
  | 0 =>
    ("What is the primary role of " ++ subject ++ " described in the text?",
     "A - It serves as a fundamental concept central to the topic being discussed.",
     ["It serves as a fundamental concept central to the topic being discussed",
      "It represents a minor detail with limited relevance",
      "It contradicts the main principles presented",
      "It is mentioned only as a historical reference"])
  | 1 =>
    ("How does " ++ subject ++ " relate to the other concepts in the text?",
     "B - It works in conjunction with other elements to form a complete system.",
     ["It operates independently of all other components",
      "It works in conjunction with other elements to form a complete system",
      "It replaces older concepts mentioned in the text",
      "It serves as a counterexample to the main theory"])
  | _ =>
    ("What characteristic of " ++ subject ++ " is emphasized in the content?",
     "C - Its practical applications in real-world scenarios.",
     ["Its theoretical foundation and origins",
      "Its limitations and constraints",
      "Its practical applications in real-world scenarios",
      "Its historical development over time"])

/-- The three descriptive fallback templates: question, answer. -/
def desc_fallback (subject : String) : Nat → String × String
  | 0 =>
    ("Explain the concept of " ++ subject ++ " as presented in the text.",
     "The text discusses " ++ subject ++ " as an important element that contributes to understanding the main topic. It has specific characteristics and functions that make it relevant in this context.")
  | 1 =>
    ("What are the key aspects of " ++ subject ++ " mentioned in the content?",
     "According to the text, " ++ subject ++ " encompasses several important aspects. These include its definition, purpose, and application within the broader framework discussed in the document.")
  | _ =>
    ("How does " ++ subject ++ " function within the system described in the text?",
     "The text explains that " ++ subject ++ " functions by interacting with other components in the system. This interaction facilitates processes that are essential to the overall operation or concept being discussed.")

/-- The `except` branch of one slot: pick the templated fallback rotated by
`(i + len(questions)) % 3`, de-duplicate by an appended marker, record the
text as used, and substitute the question for the slot. -/
def fallback_question (q_type subject : String) (i qcount : Nat)
    (used_questions : List String) : QuestionOut × List String :=
  if q_type == "multiple_choice" then
    let (q0, answer, opts) := mc_fallback subject ((i + qcount) % 3)
    let question_text :=
      if used_questions.contains q0 then q0 ++ " (expanded)" else q0
    ({ question := question_text, answer := answer, question_type := q_type
       options := some opts }, used_questions ++ [question_text])
  else
    let (q0, answer) := desc_fallback subject ((i + qcount) % 3)
    let question_text :=
      if used_questions.contains q0 then q0 ++ " (in detail)" else q0
    ({ question := question_text, answer := answer, question_type := q_type
       options := none }, used_questions ++ [question_text])

/-- One slot of the generation loop: pick the chunk and subject, call the
generator (`results` at the current global slot index), and append either the
parsed question or the fallback — the slot always yields exactly one
question. -/
def generate_slot (all_docs : List String) (results : Nat → String)
    (q_type : String) (i : Nat) (questions : List QuestionOut)
    (used_questions used_subjects : List String) :
    QuestionOut × List String × List String :=
  let doc_index := (i + questions.length) % all_docs.length
  let context := pyTake (all_docs.getD doc_index "") 350
  let subject := extract_subject context used_subjects i
  let used_subjects' := used_subjects ++ [subject]
  let result := results questions.length
  match attempt_slot q_type result used_questions with
  | (some question, used') => (question, used', used_subjects')
  | (none, used') =>
    let (question, used'') := fallback_question q_type subject i questions.length used'
    (question, used'', used_subjects')

/-- The inner `for i in range(num_questions)` loop for one question type. -/
def run_type (all_docs : List String) (results : Nat → String)
    (q_type : String) :
    Nat → Nat → List QuestionOut → List String → List String →
    List QuestionOut × List String × List String
  | _, 0, questions, uq, us => (questions, uq, us)
  | i, n + 1, questions, uq, us =>
    let (q, uq', us') :=
      generate_slot all_docs results q_type i questions uq us
    run_type all_docs results q_type (i + 1) n (questions ++ [q]) uq' us'

/-- The outer `for q_type in request.question_types` loop, threading
`remaining_questions`. -/
def run_types (all_docs : List String) (results : Nat → String)
    (questions_per_type : Nat) :
    List String → Nat → List QuestionOut → List String → List String →
    List QuestionOut × List String × List String
  | [], _, questions, uq, us => (questions, uq, us)
  | q_type :: rest, remaining, questions, uq, us =>
    let n := questions_per_type + (if remaining > 0 then 1 else 0)
    let remaining' := remaining - (if remaining > 0 then 1 else 0)
    let (questions', uq', us') :=
      run_type all_docs results q_type 0 n questions uq us
    run_types all_docs results questions_per_type rest remaining' questions' uq' us'

/-- `POST /v1/generate-questions/` after limits and vectorstore checks pass:
the question list of the `QuestionResponse`. -/
def generate_questions (all_docs : List String) (results : Nat → String)
    (num_questions : Nat) (question_types : List String) : List QuestionOut :=
  let questions_per_type := num_questions / question_types.length
  let remaining_questions := num_questions % question_types.length
  (run_types all_docs results questions_per_type question_types
      remaining_questions [] [] []).1

/-! ## Helper lemmas -/

/-- In a list whose `key` projections are pairwise distinct (the relational
unique constraint on a token column), two members with the same key are the
same row. -/
theorem pairwise_key_eq {α : Type} (key : α → String) :
    ∀ {l : List α}, l.Pairwise (fun a b => key a ≠ key b) →
      ∀ a ∈ l, ∀ b ∈ l, key a = key b → a = b := by
  intro l h
  induction h with
  | nil => intro a ha; cases ha
  | cons hx _ ih =>
    intro a ha b hb heq
    rcases List.mem_cons.mp ha with rfl | ha'
    · rcases List.mem_cons.mp hb with rfl | hb'
      · rfl
      · exact absurd heq (hx b hb')
    · rcases List.mem_cons.mp hb with rfl | hb'
      · exact absurd heq.symm (hx a ha')
      · exact ih a ha' b hb' heq

/-- A map whose function fixes every member is the identity. -/
theorem map_fixes {α : Type} {l : List α} {f : α → α} (h : ∀ a ∈ l, f a = a) :
    l.map f = l := by
  induction l with
  | nil => rfl
  | cons a l ih =>
    simp only [List.map_cons, h a (List.mem_cons_self a l)]
    rw [ih (fun b hb => h b (List.mem_cons_of_mem a hb))]

/-- `revokeFirst` is idempotent. -/
theorem revokeFirst_idem (l : List RefreshTokenR) (t : String) :
    revokeFirst (revokeFirst l t) t = revokeFirst l t := by
  induction l with
  | nil => rfl
  | cons r rs ih =>
    by_cases h : r.token == t
    · simp [revokeFirst, h]
    · simp [revokeFirst, h, ih]

/-- `revokeFirst` keeps the key columns of every row. -/
theorem revokeFirst_keys (l : List RefreshTokenR) (t : String) :
    (revokeFirst l t).map (fun r => (r.id, r.token, r.user_id))
      = l.map (fun r => (r.id, r.token, r.user_id)) := by
  induction l with
  | nil => rfl
  | cons r rs ih =>
    by_cases h : r.token == t
    · simp [revokeFirst, h]
    · simp [revokeFirst, h, ih]

/-- `revokeFirst` preserves whether a row with the token exists. -/
theorem revokeFirst_find?_isSome (l : List RefreshTokenR) (t : String) :
    ((revokeFirst l t).find? (fun r => r.token == t)).isSome
      = (l.find? (fun r => r.token == t)).isSome := by
  induction l with
  | nil => rfl
  | cons r rs ih =>
    by_cases h : r.token == t
    · simp [revokeFirst, h, List.find?_cons]
    · simp [revokeFirst, h, List.find?_cons, ih]

/-- C3: Revoking a refresh token is idempotent — the second call with the same
token string returns exactly the same store state and flag as the first — and
revocation never deletes a row: every row keeps its id, token and user. -/
theorem c3_revoke_refresh_token_idempotent (db : DB) (t : String) :
    revoke_refresh_token (revoke_refresh_token db t).1 t = revoke_refresh_token db t ∧
    ((revoke_refresh_token db t).1).refresh_tokens.map (fun r => (r.id, r.token, r.user_id))
      = db.refresh_tokens.map (fun r => (r.id, r.token, r.user_id)) := by
  unfold revoke_refresh_token
  rcases hfind : db.refresh_tokens.find? (fun r => r.token == t) with _ | r0
  · simp [hfind]
  · have hsome : ((revokeFirst db.refresh_tokens t).find? (fun r => r.token == t)).isSome = true := by
      rw [revokeFirst_find?_isSome, hfind]; rfl
    rcases hfind2 : (revokeFirst db.refresh_tokens t).find? (fun r => r.token == t) with _ | r1
    · rw [hfind2] at hsome; cases hsome
    · simp [hfind, hfind2, revokeFirst_idem, revokeFirst_keys]

/-- C4: Registration with a duplicate email or a duplicate username fails with
400 and leaves the user store (the whole state) unchanged. -/
theorem c4_register_duplicate (db : DB) (hash : String → String) (new_id : Nat)
    (user_create : UserCreate)
    (hdup : (∃ u ∈ db.users, u.email = user_create.email)
      ∨ ∃ u ∈ db.users, u.username = user_create.username) :
    register db hash new_id user_create = (.error 400, db) := by
  unfold register
  rcases hdup with ⟨u, hu, he⟩ | ⟨u, hu, hn⟩
  · have hmail : (get_user_by_email db user_create.email).isSome = true := by
      unfold get_user_by_email
      rw [List.find?_isSome]
      exact ⟨u, hu, by simp [he]⟩
    simp [hmail]
  · by_cases hmail : (get_user_by_email db user_create.email).isSome
    · simp [hmail]
    · have hname : (get_user_by_username db user_create.username).isSome = true := by
        unfold get_user_by_username
        rw [List.find?_isSome]
        exact ⟨u, hu, by simp [hn]⟩
      simp [hmail, hname]

/-- Concrete store for the C4 witness. -/
def dbW4 : DB :=
  { users := [{ id := 1, email := "alice@x.com", username := "alice"
                hashed_password := "h", full_name := "Alice", role := .user
                is_active := true, is_verified := false }]
    refresh_tokens := []
    verification_tokens := []
    password_reset_tokens := [] }

/-- C4 witness: registering a second `alice@x.com` fails with 400 and does not
change the store. -/
theorem c4_register_duplicate_witness :
    register dbW4 (fun s => s) 2
      { email := "alice@x.com", username := "bob", password := "pw12345678"
        full_name := "Bob" } = (.error 400, dbW4) :=
  c4_register_duplicate dbW4 (fun s => s) 2
    { email := "alice@x.com", username := "bob", password := "pw12345678"
      full_name := "Bob" }
    (Or.inl ⟨{ id := 1, email := "alice@x.com", username := "alice"
               hashed_password := "h", full_name := "Alice", role := .user
               is_active := true, is_verified := false },
        by simp [dbW4], rfl⟩)

/-- C10: The admin gate is email-based, not role-based: any user whose
lowercased email contains `admin` passes `is_admin` and the `/admin/stats`
gate, whatever their role. -/
theorem c10_admin_gate_email_based (user : UserR)
    (h : pyIn "admin" (pyLower user.email) = true) :
    is_admin user = true ∧ get_dashboard_stats user = .ok () := by
  refine ⟨h, ?_⟩
  simp [get_dashboard_stats, is_admin, h]

/-- Concrete user for the C10 witness: role `user`, email containing admin. -/
def uW10 : UserR :=
  { id := 7, email := "admin@example.com", username := "adminish"
    hashed_password := "h", full_name := "", role := .user
    is_active := true, is_verified := true }

/-- C10 witness: a role-`user` account with email `admin@example.com` passes
the admin check and the `/admin/stats` gate. -/
theorem c10_admin_gate_email_based_witness :
    is_admin uW10 = true ∧ get_dashboard_stats uW10 = .ok () :=
  c10_admin_gate_email_based uW10 (by decide)

/-- C6: Per-request session resolution attaches a user only in the Valid
state — cookie present and non-empty, decoding neither malformed nor expired,
`type = "access"`, subject present, user found and active; in every other
state the request ends with 401. -/
theorem c6_session_state_machine (db : DB) (access_token : Option String)
    (decode : String → DecodeOutcome) :
    get_current_user db access_token decode = .error 401 ∨
    (∃ tok payload user_id user,
      access_token = some tok ∧ tok ≠ "" ∧ decode tok = .ok payload ∧
      payload.type = "access" ∧ payload.sub = some user_id ∧
      db.users.find? (fun u => u.id == user_id) = some user ∧
      user.is_active = true ∧
      get_current_user db access_token decode = .ok user) := by
  rcases access_token with _ | tok
  · exact Or.inl rfl
  · by_cases hemp : tok = ""
    · left; simp [get_current_user, hemp]
    · rcases hdec : decode tok with _ | _ | payload
      · left; simp [get_current_user, hemp, hdec]
      · left; simp [get_current_user, hemp, hdec]
      · by_cases hty : payload.type = "access"
        · rcases hsub : payload.sub with _ | user_id
          · left; simp [get_current_user, hemp, hdec, hty, hsub]
          · rcases hfind : db.users.find? (fun u => u.id == user_id) with _ | user
            · left; simp [get_current_user, hemp, hdec, hty, hsub, hfind]
            · by_cases hact : user.is_active
              · right
                exact ⟨tok, payload, user_id, user, rfl, hemp, hdec, hty, hsub, hfind,
                  hact, by simp [get_current_user, hemp, hdec, hty, hsub, hfind, hact]⟩
              · left; simp [get_current_user, hemp, hdec, hty, hsub, hfind, hact]
        · left; simp [get_current_user, hemp, hdec, hty]

/-- C2: A refresh request is rejected with 401 and an unchanged store when a
CSRF value is missing (absent or empty), and when both CSRF values are
present but differ — regardless of the refresh-token cookie and of what the
token store holds.  The comparison itself is `compare_digest`
(`secrets.compare_digest`: value-level equality; its constant-time execution
is an implementation property outside the value model). -/
theorem c2_refresh_rejects_bad_csrf (db : DB) (now : Nat)
    (mk_access : Nat → UserRole → String) (new_csrf : String)
    (refresh_token csrf_token x_csrf_token : Option String) :
    ((falsy csrf_token = true ∨ falsy x_csrf_token = true) →
      refresh_endpoint db now mk_access new_csrf refresh_token csrf_token x_csrf_token
        = (.error 401, db)) ∧
    (∀ c x, csrf_token = some c → x_csrf_token = some x → c ≠ x →
      refresh_endpoint db now mk_access new_csrf refresh_token csrf_token x_csrf_token
        = (.error 401, db)) := by
  constructor
  · intro h
    by_cases hrt : falsy refresh_token
    · simp [refresh_endpoint, hrt]
    · rcases h with h | h <;> simp [refresh_endpoint, hrt, h]
  · intro c x hc hx hne
    by_cases hrt : falsy refresh_token
    · simp [refresh_endpoint, hrt]
    · by_cases hcf : falsy csrf_token
      · simp [refresh_endpoint, hrt, hcf]
      · by_cases hxf : falsy x_csrf_token
        · simp [refresh_endpoint, hrt, hcf, hxf]
        · have hc' : (c == "") = false := by
            subst hc; simpa [falsy] using hcf
          have hx' : (x == "") = false := by
            subst hx; simpa [falsy] using hxf
          have hvf : verify_csrf_token x c = false := by
            unfold verify_csrf_token compare_digest
            simp [hc', hx']
            exact fun h => absurd h.symm hne
          subst hc hx
          simp [refresh_endpoint, hrt, hcf, hxf, hvf]

/-- C5: On a login whose credentials authenticate (email found, bcrypt check
passes): an inactive user is rejected with 401 and no state change; an active
user receives a `bearer` token with `expires_in = ACCESS_TOKEN_EXPIRE_MINUTES
* 60` and exactly the three cookies `access_token`, `refresh_token`,
`csrf_token`. -/
theorem c5_login_credentials (db : DB) (now : Nat)
    (verify : String → String → Bool) (mk_access : Nat → UserRole → String)
    (new_rt_id : Nat) (rt_token csrf : String) (ua ip : Option String)
    (email password : String) (user : UserR)
    (hauth : authenticate_user db verify email password = some user) :
    (user.is_active = false →
      login db now verify mk_access new_rt_id rt_token csrf ua ip email password
        = (.error 401, db)) ∧
    (user.is_active = true →
      ∃ tokenOut cookies db',
        login db now verify mk_access new_rt_id rt_token csrf ua ip email password
          = (.ok (tokenOut, cookies), db') ∧
        tokenOut.token_type = "bearer" ∧
        tokenOut.expires_in = ACCESS_TOKEN_EXPIRE_MINUTES * 60 ∧
        cookies.map CookieOut.name = ["access_token", "refresh_token", "csrf_token"]) := by
  constructor
  · intro hin
    simp [login, hauth, hin]
  · intro hact
    refine ⟨{ access_token := mk_access user.id user.role, token_type := "bearer"
              expires_in := ACCESS_TOKEN_EXPIRE_MINUTES * 60 },
      [ { name := "access_token", value := mk_access user.id user.role, httponly := true
          max_age := ACCESS_TOKEN_EXPIRE_MINUTES * 60 },
        { name := "refresh_token", value := rt_token, httponly := true
          max_age := REFRESH_TOKEN_EXPIRE_DAYS * 24 * 60 * 60 },
        { name := "csrf_token", value := csrf, httponly := false
          max_age := ACCESS_TOKEN_EXPIRE_MINUTES * 60 } ],
      { db with refresh_tokens := db.refresh_tokens ++
          [{ id := new_rt_id, token := rt_token
             expires_at := now + REFRESH_TOKEN_EXPIRE_DAYS * 24 * 60 * 60
             revoked := false, user_id := user.id, user_agent := ua
             ip_address := ip }] },
      ?_, rfl, rfl, by simp⟩
    simp [login, hauth, hact, create_refresh_token]

/-- Concrete user for the C5 witness. -/
def uW5 : UserR :=
  { id := 1, email := "alice@x.com", username := "alice"
    hashed_password := "pwH", full_name := "Alice", role := .user
    is_active := true, is_verified := true }

/-- Concrete store for the C5 witness. -/
def dbW5 : DB :=
  { users := [uW5], refresh_tokens := [], verification_tokens := []
    password_reset_tokens := [] }

/-- C5 witness: a concrete active user logging in with the right password
gets a bearer token, the configured `expires_in`, and the three cookies. -/
theorem c5_login_credentials_witness :
    ∃ tokenOut cookies db',
      login dbW5 0 (fun p h => (p ++ "H") == h) (fun _ _ => "jwt") 1 "rt" "cs"
          none none "alice@x.com" "pw"
        = (.ok (tokenOut, cookies), db') ∧
      tokenOut.token_type = "bearer" ∧
      tokenOut.expires_in = ACCESS_TOKEN_EXPIRE_MINUTES * 60 ∧
      cookies.map CookieOut.name = ["access_token", "refresh_token", "csrf_token"] :=
  (c5_login_credentials dbW5 0 (fun p h => (p ++ "H") == h) (fun _ _ => "jwt") 1
    "rt" "cs" none none "alice@x.com" "pw" uW5 (by decide)).2 rfl

/-- State shape of a successful `reset_user_password`: refresh tokens are
untouched and the found reset-token row is deleted. -/
theorem reset_user_password_state (db : DB) (now : Nat) (hash : String → String)
    (token pw : String) (user : UserR) (db1 : DB)
    (h : reset_user_password db now hash token pw = some (user, db1)) :
    db1.refresh_tokens = db.refresh_tokens ∧
    ∃ r0, db.password_reset_tokens.find?
        (fun t => t.token == token && decide (now < t.expires_at)) = some r0 ∧
      db1.password_reset_tokens
        = db.password_reset_tokens.filter (fun t => t.id != r0.id) := by
  unfold reset_user_password at h
  split at h
  · exact Option.noConfusion h
  · rename_i r0 hfind
    split at h
    · exact Option.noConfusion h
    · simp only [Option.some.injEq, Prod.mk.injEq] at h
      obtain ⟨-, hdb⟩ := h
      subst hdb
      exact ⟨rfl, r0, hfind, rfl⟩

/-- State shape of a successful `verify_user_email`: the found verification
row is deleted. -/
theorem verify_user_email_state (db : DB) (now : Nat)
    (token : String) (user : UserR) (db1 : DB)
    (h : verify_user_email db now token = some (user, db1)) :
    ∃ r0, db.verification_tokens.find?
        (fun t => t.token == token && decide (now < t.expires_at)) = some r0 ∧
      db1.verification_tokens
        = db.verification_tokens.filter (fun t => t.id != r0.id) := by
  unfold verify_user_email at h
  split at h
  · exact Option.noConfusion h
  · rename_i r0 hfind
    split at h
    · exact Option.noConfusion h
    · simp only [Option.some.injEq, Prod.mk.injEq] at h
      obtain ⟨-, hdb⟩ := h
      subst hdb
      exact ⟨r0, hfind, rfl⟩

/-- After deleting the row a unique-token lookup found, no row with that
token string survives the filter. -/
theorem find?_token_filter_deleted {β : Type} (key : β → String) (idOf : β → Nat)
    (expOf : β → Nat) (l : List β) (token : String) (now now2 : Nat) (r0 : β)
    (hdist : l.Pairwise (fun a b => key a ≠ key b))
    (hfind : l.find? (fun t => key t == token && decide (now < expOf t)) = some r0) :
    (l.filter (fun t => idOf t != idOf r0)).find?
      (fun t => key t == token && decide (now2 < expOf t)) = none := by
  rw [List.find?_eq_none]
  intro x hx hpred
  obtain ⟨hmem, hid⟩ := List.mem_filter.mp hx
  simp only [Bool.and_eq_true, beq_iff_eq] at hpred
  have hp0 := List.find?_some hfind
  simp only [Bool.and_eq_true, beq_iff_eq] at hp0
  have hxr0 : x = r0 :=
    pairwise_key_eq key hdist x hmem r0 (List.mem_of_find?_eq_some hfind)
      (hpred.1.trans hp0.1.symm)
  rw [hxr0] at hid
  simp at hid

/-- C7: Verification and reset tokens are single-use — under the unique
constraint on the token columns, a second `verify_user_email` (resp.
`reset_user_password`) with a token that succeeded once returns the
invalid-token result `none`, because the first use deleted the row. -/
theorem c7_tokens_single_use (db : DB) (now now2 : Nat) (hash : String → String)
    (vt rt pw pw2 : String) (uv ur : UserR) (db1 db2 : DB)
    (hv : verify_user_email db now vt = some (uv, db1))
    (hvd : db.verification_tokens.Pairwise (fun a b => a.token ≠ b.token))
    (hr : reset_user_password db now hash rt pw = some (ur, db2))
    (hrd : db.password_reset_tokens.Pairwise (fun a b => a.token ≠ b.token)) :
    verify_user_email db1 now2 vt = none ∧
    reset_user_password db2 now2 hash rt pw2 = none := by
  constructor
  · obtain ⟨r0, hfind, hdel⟩ := verify_user_email_state db now vt uv db1 hv
    have hnone := find?_token_filter_deleted
      (fun t : VerificationTokenR => t.token) (fun t => t.id) (fun t => t.expires_at)
      db.verification_tokens vt now now2 r0 hvd hfind
    unfold verify_user_email
    rw [hdel, hnone]
  · obtain ⟨-, r0, hfind, hdel⟩ := reset_user_password_state db now hash rt pw ur db2 hr
    have hnone := find?_token_filter_deleted
      (fun t : PasswordResetTokenR => t.token) (fun t => t.id) (fun t => t.expires_at)
      db.password_reset_tokens rt now now2 r0 hrd hfind
    unfold reset_user_password
    rw [hdel, hnone]

/-- Concrete base user for the C7 witness. -/
def uW7 : UserR :=
  { id := 1, email := "bob@x.com", username := "bob"
    hashed_password := "Hpw", full_name := "Bob", role := .user
    is_active := true, is_verified := false }

/-- Concrete store for the C7 witness: one verification and one reset token. -/
def dbW7 : DB :=
  { users := [uW7]
    refresh_tokens := []
    verification_tokens := [{ id := 1, token := "vrf", expires_at := 100, user_id := 1 }]
    password_reset_tokens := [{ id := 1, token := "rst", expires_at := 100, user_id := 1 }] }

/-- C7 witness: after a successful verification (resp. reset) at time 0, the
same token is rejected at time 5. -/
theorem c7_tokens_single_use_witness :
    verify_user_email
        { dbW7 with users := [{ uW7 with is_verified := true }], verification_tokens := [] }
        5 "vrf" = none ∧
    reset_user_password
        { dbW7 with users := [{ uW7 with hashed_password := "Hpw2" }], password_reset_tokens := [] }
        5 (fun s => "H" ++ s) "rst" "other" = none :=
  c7_tokens_single_use dbW7 0 5 (fun s => "H" ++ s) "vrf" "rst" "pw2" "other"
    { uW7 with is_verified := true } { uW7 with hashed_password := "Hpw2" }
    { dbW7 with users := [{ uW7 with is_verified := true }], verification_tokens := [] }
    { dbW7 with users := [{ uW7 with hashed_password := "Hpw2" }], password_reset_tokens := [] }
    (by decide) (by simp [dbW7]) (by decide) (by simp [dbW7])

/-- The loop body of `revoke_all_user_refresh_tokens`: mark the row revoked
when it belongs to the user and is not revoked yet. -/
def markRevoked (uid : Nat) (r : RefreshTokenR) : RefreshTokenR :=
  if r.user_id == uid && r.revoked == false then { r with revoked := true } else r

theorem markRevoked_id (uid : Nat) (r : RefreshTokenR) :
    (markRevoked uid r).id = r.id := by
  unfold markRevoked; split <;> rfl

theorem markRevoked_token (uid : Nat) (r : RefreshTokenR) :
    (markRevoked uid r).token = r.token := by
  unfold markRevoked; split <;> rfl

theorem markRevoked_user_id (uid : Nat) (r : RefreshTokenR) :
    (markRevoked uid r).user_id = r.user_id := by
  unfold markRevoked; split <;> rfl

/-- A row of the targeted user is revoked after `markRevoked`. -/
theorem markRevoked_revoked (uid : Nat) (r : RefreshTokenR) (h : r.user_id = uid) :
    (markRevoked uid r).revoked = true := by
  unfold markRevoked
  rcases hrev : r.revoked with _ | _
  · simp [h, hrev]
  · simp [hrev]

/-- An already revoked row stays revoked after `markRevoked`. -/
theorem markRevoked_mono (uid : Nat) (r : RefreshTokenR) (h : r.revoked = true) :
    (markRevoked uid r).revoked = true := by
  unfold markRevoked
  simp [h]

/-- The refresh-token table after `revoke_all_user_refresh_tokens`, in both
branches: the pointwise mark-revoked map over the table. -/
theorem revoke_all_refresh_tokens (d : DB) (uid : Nat) :
    (revoke_all_user_refresh_tokens d uid).1.refresh_tokens
      = d.refresh_tokens.map (markRevoked uid) := by
  unfold revoke_all_user_refresh_tokens
  simp only []
  split
  · rename_i h
    rw [eq_comm]
    apply map_fixes
    intro a ha
    have hnot := List.filter_eq_nil_iff.mp (List.isEmpty_iff.mp h) a ha
    simp only [Bool.not_eq_true] at hnot
    simp only [markRevoked]
    rw [hnot]
    rfl
  · rfl

/-- C1: When `reset_user_password` succeeds for a user, the reset-password
endpoint leaves every refresh token of that user present but revoked, and
(under the unique constraint on the token column) `get_refresh_token` on any
refresh token previously issued for that user returns nothing at any later
time. -/
theorem c1_reset_password_revokes_all (db : DB) (now now2 : Nat)
    (hash : String → String) (token pw : String) (user : UserR) (db1 : DB)
    (hreset : reset_user_password db now hash token pw = some (user, db1))
    (hdist : db.refresh_tokens.Pairwise (fun a b => a.token ≠ b.token))
    (r : RefreshTokenR) (hr : r ∈ db.refresh_tokens) (hru : r.user_id = user.id) :
    (∃ r' ∈ ((reset_password db now hash token pw).2).refresh_tokens,
        r'.id = r.id ∧ r'.token = r.token ∧ r'.revoked = true) ∧
    get_refresh_token (reset_password db now hash token pw).2 now2 r.token = none := by
  have hend : (reset_password db now hash token pw).2
      = (revoke_all_user_refresh_tokens db1 user.id).1 := by
    unfold reset_password
    rw [hreset]
  have hrt1 : db1.refresh_tokens = db.refresh_tokens :=
    (reset_user_password_state db now hash token pw user db1 hreset).1
  have hmap : ((reset_password db now hash token pw).2).refresh_tokens
      = db.refresh_tokens.map (markRevoked user.id) := by
    rw [hend, revoke_all_refresh_tokens, hrt1]
  constructor
  · refine ⟨markRevoked user.id r, ?_, markRevoked_id user.id r,
      markRevoked_token user.id r, markRevoked_revoked user.id r hru⟩
    rw [hmap]
    exact List.mem_map_of_mem _ hr
  · unfold get_refresh_token
    rw [hmap, List.find?_eq_none]
    intro x hx hpred
    obtain ⟨r'', hr'', hxeq⟩ := List.mem_map.mp hx
    subst hxeq
    simp only [markRevoked_token, Bool.and_eq_true, beq_iff_eq] at hpred
    have hr''r : r'' = r :=
      pairwise_key_eq (fun a => a.token) hdist r'' hr'' r hr hpred.1.1
    subst hr''r
    rw [markRevoked_revoked user.id r'' hru] at hpred
    simp at hpred

/-- Concrete refresh token for the C1 witness. -/
def rtW1 : RefreshTokenR :=
  { id := 1, token := "tokA", expires_at := 1000, revoked := false, user_id := 1
    user_agent := none, ip_address := none }

/-- Concrete store for the C1 witness. -/
def dbW1 : DB :=
  { users := [uW7]
    refresh_tokens := [rtW1]
    verification_tokens := []
    password_reset_tokens := [{ id := 1, token := "rst", expires_at := 100, user_id := 1 }] }

/-- C1 witness: after a concrete successful password reset, the user's
refresh token row is still there, revoked, and no longer validates. -/
theorem c1_reset_password_revokes_all_witness :
    (∃ r' ∈ ((reset_password dbW1 0 (fun s => "H" ++ s) "rst" "pw2").2).refresh_tokens,
        r'.id = rtW1.id ∧ r'.token = rtW1.token ∧ r'.revoked = true) ∧
    get_refresh_token (reset_password dbW1 0 (fun s => "H" ++ s) "rst" "pw2").2 5
      rtW1.token = none :=
  c1_reset_password_revokes_all dbW1 0 5 (fun s => "H" ++ s) "rst" "pw2"
    { uW7 with hashed_password := "Hpw2" }
    { dbW1 with users := [{ uW7 with hashed_password := "Hpw2" }], password_reset_tokens := [] }
    (by decide) (by simp [dbW1]) rtW1 (by decide) (by decide)

/-- Monotonicity of the `revoked` flag across one store transition: every
old row survives with its identity, and a revoked row stays revoked. -/
def rt_monotone (old new : List RefreshTokenR) : Prop :=
  ∀ r ∈ old, ∃ r' ∈ new, r'.id = r.id ∧ r'.token = r.token ∧ r'.user_id = r.user_id ∧
    (r.revoked = true → r'.revoked = true)

theorem rt_monotone_refl (l : List RefreshTokenR) : rt_monotone l l :=
  fun r hr => ⟨r, hr, rfl, rfl, rfl, fun h => h⟩

theorem rt_monotone_revokeFirst (l : List RefreshTokenR) (t : String) :
    rt_monotone l (revokeFirst l t) := by
  induction l with
  | nil => intro r hr; cases hr
  | cons a as ih =>
    intro r hr
    by_cases ha : a.token == t
    · rcases List.mem_cons.mp hr with rfl | hr'
      · exact ⟨{ r with revoked := true }, by simp [revokeFirst, ha], rfl, rfl, rfl,
          fun _ => rfl⟩
      · refine ⟨r, ?_, rfl, rfl, rfl, fun h => h⟩
        simp only [revokeFirst, ha, if_true, List.mem_cons]
        exact Or.inr hr'
    · rcases List.mem_cons.mp hr with rfl | hr'
      · refine ⟨r, ?_, rfl, rfl, rfl, fun h => h⟩
        simp [revokeFirst, ha]
      · obtain ⟨r', hmem, h1, h2, h3, h4⟩ := ih r hr'
        refine ⟨r', ?_, h1, h2, h3, h4⟩
        simp only [revokeFirst, ha, if_false, List.mem_cons, Bool.false_eq_true]
        exact Or.inr hmem

theorem rt_monotone_markRevoked (l : List RefreshTokenR) (uid : Nat) :
    rt_monotone l (l.map (markRevoked uid)) := by
  intro r hr
  exact ⟨markRevoked uid r, List.mem_map_of_mem _ hr, markRevoked_id uid r,
    markRevoked_token uid r, markRevoked_user_id uid r, markRevoked_mono uid r⟩

theorem rt_monotone_revoke (db : DB) (t : String) :
    rt_monotone db.refresh_tokens ((revoke_refresh_token db t).1).refresh_tokens := by
  unfold revoke_refresh_token
  rcases hfind : db.refresh_tokens.find? (fun r => r.token == t) with _ | r0 <;>
    rw [hfind]
  · exact rt_monotone_refl _
  · exact rt_monotone_revokeFirst _ _

/-- The refresh endpoint never changes the store. -/
theorem refresh_endpoint_state (db : DB) (now : Nat)
    (mk_access : Nat → UserRole → String) (new_csrf : String)
    (refresh_token csrf_token x_csrf_token : Option String) :
    (refresh_endpoint db now mk_access new_csrf refresh_token csrf_token
      x_csrf_token).2 = db := by
  unfold refresh_endpoint
  split
  · rfl
  split
  · rfl
  dsimp only
  split
  · rfl
  split
  · rfl
  split
  · rfl
  split
  · rfl
  rfl

/-- C9: `revoked` is monotonic across every operation of the subsystem —
creation inserts the row with `revoked = false`; single revocation, bulk
revocation, logout and the reset-password endpoint keep every existing row
(same id, token and user) and never clear a set flag; the refresh endpoint
does not touch the store at all. -/
theorem c9_revoked_monotonic (db : DB) (t : String) (uid now new_id user_id : Nat)
    (tok : String) (ua ip : Option String) (now2 : Nat) (hash : String → String)
    (rtok pw : String) (mk_access : Nat → UserRole → String) (new_csrf : String)
    (ort occ oxc : Option String) :
    rt_monotone db.refresh_tokens ((revoke_refresh_token db t).1).refresh_tokens ∧
    rt_monotone db.refresh_tokens
      ((revoke_all_user_refresh_tokens db uid).1).refresh_tokens ∧
    ((create_refresh_token db now new_id user_id tok ua ip).2).refresh_tokens
      = db.refresh_tokens ++
        [{ id := new_id, token := tok
           expires_at := now + REFRESH_TOKEN_EXPIRE_DAYS * 24 * 60 * 60
           revoked := false, user_id := user_id, user_agent := ua
           ip_address := ip }] ∧
    rt_monotone db.refresh_tokens (logout db ort).refresh_tokens ∧
    rt_monotone db.refresh_tokens
      ((reset_password db now2 hash rtok pw).2).refresh_tokens ∧
    (refresh_endpoint db now mk_access new_csrf ort occ oxc).2 = db := by
  refine ⟨rt_monotone_revoke db t, ?_, rfl, ?_, ?_,
    refresh_endpoint_state db now mk_access new_csrf ort occ oxc⟩
  · rw [revoke_all_refresh_tokens]
    exact rt_monotone_markRevoked _ _
  · unfold logout
    rcases ort with _ | rt
    · exact rt_monotone_refl _
    · exact rt_monotone_revoke db rt
  · unfold reset_password
    rcases hres : reset_user_password db now2 hash rtok pw with _ | p
    · exact rt_monotone_refl _
    · obtain ⟨user, db1⟩ := p
      have hrt1 : db1.refresh_tokens = db.refresh_tokens :=
        (reset_user_password_state db now2 hash rtok pw user db1 hres).1
      simp only []
      rw [revoke_all_refresh_tokens, hrt1]
      exact rt_monotone_markRevoked _ _

/-- Each slot of the inner loop appends exactly one question (parsed or
fallback). -/
theorem run_type_length (all_docs : List String) (results : Nat → String)
    (q_type : String) :
    ∀ (n i : Nat) (questions : List QuestionOut) (uq us : List String),
      ((run_type all_docs results q_type i n questions uq us).1).length
        = questions.length + n := by
  intro n
  induction n with
  | zero => intro i questions uq us; simp [run_type]
  | succ m ih =>
    intro i questions uq us
    rcases hgs : generate_slot all_docs results q_type i questions uq us
      with ⟨q, uq1, us1⟩
    simp only [run_type, hgs]
    rw [ih]
    simp
    omega

/-- The outer loop produces `types.length * per_type + min remaining
types.length` questions. -/
theorem run_types_length (all_docs : List String) (results : Nat → String)
    (questions_per_type : Nat) :
    ∀ (types : List String) (remaining : Nat) (questions : List QuestionOut)
      (uq us : List String),
      ((run_types all_docs results questions_per_type types remaining questions
          uq us).1).length
        = questions.length + types.length * questions_per_type
            + min remaining types.length := by
  intro types
  induction types with
  | nil => intro r questions uq us; simp [run_types]
  | cons t rest ih =>
    intro r questions uq us
    rcases hrt : run_type all_docs results t 0
        (questions_per_type + if r > 0 then 1 else 0) questions uq us
      with ⟨q1, uq1, us1⟩
    simp only [run_types, hrt]
    rw [ih]
    have hq1 : q1.length
        = questions.length + (questions_per_type + if r > 0 then 1 else 0) := by
      have h := run_type_length all_docs results t
        (questions_per_type + if r > 0 then 1 else 0) 0 questions uq us
      rw [hrt] at h
      exact h
    rw [hq1]
    simp only [List.length_cons, Nat.succ_mul]
    rcases Nat.eq_zero_or_pos r with h0 | hpos
    · subst h0
      simp
      omega
    · rw [if_pos hpos]
      omega

/-- C8: With a non-empty `question_types` list (and a non-empty retrieved
chunk pool, which an existing index provides), the response holds exactly
`num_questions` questions: `num_questions // len(types)` per type plus one
for each of the first `num_questions % len(types)` types; and whenever the
per-slot parse fails (generator error, missing sections, wrong option count,
or duplicate question text), the slot is filled with the templated fallback
instead of being dropped. -/
theorem c8_generate_questions_count (all_docs : List String)
    (results : Nat → String) (num_questions : Nat)
    (question_types : List String) (_hdocs : all_docs ≠ [])
    (htypes : question_types ≠ []) :
    (generate_questions all_docs results num_questions question_types).length
      = num_questions ∧
    (∀ q_type i questions uq us,
      (attempt_slot q_type (results questions.length) uq).1 = none →
      ∃ subject,
        (generate_slot all_docs results q_type i questions uq us).1
          = (fallback_question q_type subject i questions.length
              (attempt_slot q_type (results questions.length) uq).2).1) := by
  constructor
  · unfold generate_questions
    rw [run_types_length]
    simp only [List.length_nil, Nat.zero_add]
    have hlen : 0 < question_types.length := List.length_pos.mpr htypes
    have hmod : num_questions % question_types.length < question_types.length :=
      Nat.mod_lt _ hlen
    rw [Nat.min_eq_left (Nat.le_of_lt hmod)]
    exact Nat.div_add_mod num_questions question_types.length
  · intro q_type i questions uq us hnone
    refine ⟨extract_subject
      (pyTake (all_docs.getD ((i + questions.length) % all_docs.length) "") 350)
      us i, ?_⟩
    rcases hat : attempt_slot q_type (results questions.length) uq with ⟨oq, used'⟩
    rw [hat] at hnone
    simp only at hnone
    subst hnone
    rcases hfb : fallback_question q_type
        (extract_subject
          (pyTake (all_docs.getD ((i + questions.length) % all_docs.length) "") 350)
          us i)
        i questions.length used' with ⟨fq, fu⟩
    simp only [generate_slot, hat, hfb]

/-- C8 witness: a concrete request for 5 questions over two types with a
generator that never produces a parsable response still gets exactly 5
(fallback) questions. -/
theorem c8_generate_questions_count_witness :
    (generate_questions ["The Alpha Beta document content"] (fun _ => "") 5
        ["multiple_choice", "descriptive"]).length = 5 ∧
    (∀ q_type i questions uq us,
      (attempt_slot q_type ((fun _ : Nat => "") questions.length) uq).1 = none →
      ∃ subject,
        (generate_slot ["The Alpha Beta document content"] (fun _ => "") q_type i
            questions uq us).1
          = (fallback_question q_type subject i questions.length
              (attempt_slot q_type ((fun _ : Nat => "") questions.length) uq).2).1) :=
  c8_generate_questions_count ["The Alpha Beta document content"] (fun _ => "") 5
    ["multiple_choice", "descriptive"] (by decide) (by decide)

end SmartPdf
